import Mathlib

/-
Verification of the Vulkan/OpenGL interop sample (gl_vk_simple_interop).

Shallow embedding of the interop core:
  * `nvvk.MemoryObjectManager` with `acquireMemoryObject` / `releaseMemoryObject`
    (gl_vk.hpp, the reference-counted memory-object cache),
  * the fd-based `nvvkpp.BufferVkGL` / `createBufferGL` (gl_vkpp.hpp),
  * the manager-based `nvvk.BufferVkGL` / `nvvk.Texture2DVkGL` and their `destroy`,
  * `SemaphoresVkGL` teardown, `ComputeImageVk` frame/teardown/resize call traces
    (compute.hpp, main.cpp).

Side effects (GL/Vulkan/driver calls) are modelled as explicit event lists so that
"how many import calls were made", "was the fd closed", "which semaphores were
destroyed" become countable facts.  Handles and GL names are `Nat`s; POSIX file
descriptors are `Int`s (the sentinel -1 means "no descriptor").  The uint64
reference counter of the cache is modelled as `Nat`: counts equal the number of
live resources sharing one device-memory block, which stays far below 2^64, so
wrap-around never matters on any reachable state.
-/

/-- The four semaphores of the interop pair: the two Vulkan semaphores and the
two OpenGL semaphore ids imported from them (gl_vk.hpp `SemaphoresVkGL`). -/
inductive SemId
  | vkReady
  | vkComplete
  | glReady
  | glComplete
deriving DecidableEq, Repr

/-- The Vulkan/OpenGL pair refer to the same underlying semaphore payloads:
ready (0) and complete (1).  `vkReady`/`glReady` are one object exported and
imported across the APIs, likewise `vkComplete`/`glComplete`. -/
def SemId.underlying : SemId → Nat
  | .vkReady => 0
  | .glReady => 0
  | .vkComplete => 1
  | .glComplete => 1

/-- Observable side effects (driver / GL / Vulkan calls) of the interop code. -/
inductive Ev
  | createMemoryObjects (g : Nat)        -- glCreateMemoryObjectsEXT
  | getMemoryFd (mem : Nat)              -- vkGetMemoryFdKHR: export a handle for device memory `mem`
  | importMemoryFd (g : Nat) (mem : Nat) -- glImportMemoryFdEXT: import the handle of `mem` into memory object `g`
  | deleteMemoryObjects (g : Nat)        -- glDeleteMemoryObjectsEXT
  | assertFail                           -- a debug assert() fired
  | releaseCall (g : Nat)                -- a resource destroy invoked releaseMemoryObject(g)
  | vkGetMemoryFdResult (fd : Int)       -- vkGetMemoryFdKHR returning descriptor `fd` (gl_vkpp.hpp path)
  | importMemoryFdRaw (g : Nat) (fd : Int) -- glImportMemoryFdEXT consuming descriptor `fd` (gl_vkpp.hpp path)
  | closeFd (fd : Int)                   -- close() on a POSIX descriptor
  | createBuffers (id : Nat)             -- glCreateBuffers
  | deleteBuffers (id : Nat)             -- glDeleteBuffers
  | createTextures (id : Nat)            -- glCreateTextures
  | deleteTextures (id : Nat)            -- glDeleteTextures
  | texStorageMem (id : Nat) (g : Nat)   -- glTextureStorageMem2DEXT
  | bufStorageMem (id : Nat) (g : Nat)   -- glNamedBufferStorageMemEXT
  | destroyVkResource                    -- allocator destroy of the Vulkan buffer/image
  | createImageExport (mem : Nat)        -- createImageExport: new exportable allocation with identity `mem`
  | updateDescriptorSets                 -- vkUpdateDescriptorSets
  | glSignalSemaphore (s : SemId)        -- glSignalSemaphoreEXT
  | glWaitSemaphore (s : SemId)          -- glWaitSemaphoreEXT (GPU-side wait)
  | waitForFences                        -- vkWaitForFences: CPU blocks until the fence is signaled
  | resetFences                          -- vkResetFences
  | recordCommandBuffer                  -- vkBeginCommandBuffer .. vkCmdDispatch .. vkEndCommandBuffer
  | queueSubmit (wait : SemId) (signal : SemId) -- vkQueueSubmit: GPU waits `wait` before the commands, signals `signal` after
  | queueWaitIdle                        -- vkQueueWaitIdle: CPU blocks until all GPU work on the queue completes
  | recordBarrierCommands                -- nvvk::beginSingleTimeCommands + cmdImageMemoryBarrier + end: record a one-shot layout transition
  | queueSubmitOneShot                   -- vkQueueSubmit of the one-shot command buffer, no semaphores (in nvvk::endSingleTimeCommands)
  | drawArrays                           -- glDrawArrays sampling the shared texture
  | destroySemaphore (s : SemId)         -- vkDestroySemaphore
  | deleteSemaphores (s : SemId)         -- glDeleteSemaphoresEXT
  | otherTeardown                        -- a teardown call not involving semaphores / the cache
deriving DecidableEq, Repr

/-- Number of events satisfying `p`. -/
def countEv (p : Ev → Bool) : List Ev → Nat
  | [] => 0
  | x :: t => (if p x then 1 else 0) + countEv p t

theorem countEv_append (p : Ev → Bool) (l1 l2 : List Ev) :
    countEv p (l1 ++ l2) = countEv p l1 + countEv p l2 := by
  induction l1 with
  | nil => simp [countEv]
  | cons x t ih => simp [countEv, ih]; omega

/-- Index of the first occurrence of `e` (length of the list if absent). -/
def idxOf (e : Ev) : List Ev → Nat
  | [] => 0
  | x :: t => if x = e then 0 else idxOf e t + 1

/- Association lists standing in for the two std::unordered_map members of
MemoryObjectManager.  Keys are unique in every reachable state. -/

/-- First value bound to key `k` (std::unordered_map::find). -/
def alookup : List (Nat × Nat) → Nat → Option Nat
  | [], _ => none
  | (a, b) :: t, k => if a = k then some b else alookup t k

/-- Remove the entry of key `k` (std::unordered_map::erase by iterator). -/
def aerase : List (Nat × Nat) → Nat → List (Nat × Nat)
  | [], _ => []
  | (a, b) :: t, k => if a = k then t else (a, b) :: aerase t k

/-- Remove the first entry whose VALUE is `v`: the erase-by-value scan over
m_importedMemoryObjects in releaseMemoryObject (find value, erase, break). -/
def aeraseVal : List (Nat × Nat) → Nat → List (Nat × Nat)
  | [], _ => []
  | (a, b) :: t, v => if b = v then t else (a, b) :: aeraseVal t v

/-- Overwrite the value at key `k` (store through a found iterator);
identity when the key is absent. -/
def aset : List (Nat × Nat) → Nat → Nat → List (Nat × Nat)
  | [], _, _ => []
  | (a, b) :: t, k, v => if a = k then (a, v) :: t else (a, b) :: aset t k v

/-- Add one to the value at key `k` (refIt->second.fetch_add(1));
identity when the key is absent, exactly as the guarded increment in the source. -/
def aincr : List (Nat × Nat) → Nat → List (Nat × Nat)
  | [], _ => []
  | (a, b) :: t, k => if a = k then (a, b + 1) :: t else (a, b) :: aincr t k

theorem alookup_append_none {l : List (Nat × Nat)} {k : Nat} (h : alookup l k = none)
    (e : Nat × Nat) : alookup (l ++ [e]) k = alookup [e] k := by
  induction l with
  | nil => simp
  | cons x t ih =>
    match x with
    | (a, b) =>
      by_cases hak : a = k
      · simp [alookup, hak] at h
      · simp [alookup, hak] at h ⊢
        exact ih h

namespace nvvk

/-- State of `MemoryObjectManager` (gl_vk.hpp): the device-memory → GL memory
object map, the GL memory object → reference count map, and the next GL name
that glCreateMemoryObjectsEXT will hand out (GL names are nonzero). -/
structure MemoryObjectManager where
  importedMemoryObjects : List (Nat × Nat)
  refCounts : List (Nat × Nat)
  nextGL : Nat
deriving DecidableEq, Repr

/-- `MemoryObjectManager::acquireMemoryObject` (gl_vk.hpp).  The caller's VMA
allocation is represented by its device-memory identity `deviceMemory`
(vmaGetAllocationInfo2's allocationInfo.deviceMemory).  Returns the GL memory
object, the new manager state and the driver calls made (POSIX branch):
  * cache hit: increment the reference count (when present), return the cached
    id; NO export and NO import call;
  * cache miss: glCreateMemoryObjectsEXT, vkGetMemoryFdKHR, glImportMemoryFdEXT,
    then insert into both maps with reference count 1. -/
def acquireMemoryObject (deviceMemory : Nat) (s : MemoryObjectManager) :
    Nat × MemoryObjectManager × List Ev :=
  match alookup s.importedMemoryObjects deviceMemory with
  | some memoryObject =>
      (memoryObject,
       ⟨s.importedMemoryObjects, aincr s.refCounts memoryObject, s.nextGL⟩,
       [])
  | none =>
      let memoryObject := s.nextGL
      (memoryObject,
       ⟨s.importedMemoryObjects ++ [(deviceMemory, memoryObject)],
        s.refCounts ++ [(memoryObject, 1)],
        s.nextGL + 1⟩,
       [Ev.createMemoryObjects memoryObject, Ev.getMemoryFd deviceMemory,
        Ev.importMemoryFd memoryObject deviceMemory])

/-- `MemoryObjectManager::releaseMemoryObject` (gl_vk.hpp): if the id has a
reference-count entry, decrement it; on reaching zero call
glDeleteMemoryObjectsEXT and erase the entry from both maps.  An id without an
entry is silently ignored (the find fails and nothing happens — no assert). -/
def releaseMemoryObject (memObject : Nat) (s : MemoryObjectManager) :
    MemoryObjectManager × List Ev :=
  match alookup s.refCounts memObject with
  | none => (s, [])
  | some c =>
      let newCount := c - 1
      if newCount = 0 then
        (⟨aeraseVal s.importedMemoryObjects memObject,
          aerase s.refCounts memObject, s.nextGL⟩,
         [Ev.deleteMemoryObjects memObject])
      else
        (⟨s.importedMemoryObjects, aset s.refCounts memObject newCount, s.nextGL⟩, [])

/-- `~MemoryObjectManager()` (gl_vk.hpp line 42):
assert(m_importedMemoryObjects.empty() && "Missing to call clear()").
The assertion fires exactly when the cache is non-empty. -/
def managerDtor (s : MemoryObjectManager) : List Ev :=
  if s.importedMemoryObjects = [] then [] else [Ev.assertFail]

/-- `n` successive acquires against the same device-memory identity
(e.g. several logical resources backed by one allocation). -/
def acquireN (deviceMemory : Nat) : Nat → MemoryObjectManager → MemoryObjectManager × List Ev
  | 0, s => (s, [])
  | n + 1, s =>
      let r := acquireMemoryObject deviceMemory s
      let r2 := acquireN deviceMemory n r.2.1
      (r2.1, r.2.2 ++ r2.2)

end nvvk

/-- Recognize glImportMemoryFdEXT calls importing device memory `D`. -/
def isImportOfMem (D : Nat) : Ev → Bool
  | .importMemoryFd _ m => m = D
  | _ => false

/-- Recognize vkGetMemoryFdKHR handle exports for device memory `D`. -/
def isExportOfMem (D : Nat) : Ev → Bool
  | .getMemoryFd m => m = D
  | _ => false

theorem acquire_hit {s : nvvk.MemoryObjectManager} {D g : Nat}
    (h : alookup s.importedMemoryObjects D = some g) :
    nvvk.acquireMemoryObject D s =
      (g, ⟨s.importedMemoryObjects, aincr s.refCounts g, s.nextGL⟩, []) := by
  simp [nvvk.acquireMemoryObject, h]

theorem acquire_keeps_key (D : Nat) (s : nvvk.MemoryObjectManager) :
    ∃ g, alookup (nvvk.acquireMemoryObject D s).2.1.importedMemoryObjects D = some g := by
  cases h : alookup s.importedMemoryObjects D with
  | some g =>
    refine ⟨g, ?_⟩
    simp [nvvk.acquireMemoryObject, h]
  | none =>
    refine ⟨s.nextGL, ?_⟩
    simp [nvvk.acquireMemoryObject, h, alookup_append_none h, alookup]

theorem acquireN_hit (D : Nat) : ∀ (n : Nat) (s : nvvk.MemoryObjectManager),
    (∃ g, alookup s.importedMemoryObjects D = some g) →
    (nvvk.acquireN D n s).2 = [] := by
  intro n
  induction n with
  | zero => intro s _; rfl
  | succ m ih =>
    intro s hs
    obtain ⟨g, hg⟩ := hs
    have hstep := acquire_hit hg
    show ((nvvk.acquireMemoryObject D s).2.2 ++
      (nvvk.acquireN D m (nvvk.acquireMemoryObject D s).2.1).2) = []
    rw [hstep]
    simp
    exact ih _ ⟨g, by simpa [hstep] using hg⟩

/-- C1.  For a device-memory identity `D` not yet cached, a run of `n ≥ 1`
acquires performs exactly one handle export and one import for `D`; and on any
state with `D` cached, one more acquire returns the cached id, only increments
the reference count, and makes no driver call at all. -/
theorem C1_acquire_imports_once (D n : Nat) (s : nvvk.MemoryObjectManager)
    (habs : alookup s.importedMemoryObjects D = none) (hn : 1 ≤ n) :
    countEv (isImportOfMem D) (nvvk.acquireN D n s).2 = 1 ∧
    countEv (isExportOfMem D) (nvvk.acquireN D n s).2 = 1 ∧
    (∀ (s2 : nvvk.MemoryObjectManager) (g : Nat),
      alookup s2.importedMemoryObjects D = some g →
      (nvvk.acquireMemoryObject D s2).1 = g ∧
      (nvvk.acquireMemoryObject D s2).2.2 = [] ∧
      (nvvk.acquireMemoryObject D s2).2.1.importedMemoryObjects = s2.importedMemoryObjects ∧
      (nvvk.acquireMemoryObject D s2).2.1.refCounts = aincr s2.refCounts g) := by
  obtain ⟨m, rfl⟩ : ∃ m, n = m + 1 := ⟨n - 1, by omega⟩
  have hstep : nvvk.acquireMemoryObject D s =
      (s.nextGL,
       ⟨s.importedMemoryObjects ++ [(D, s.nextGL)], s.refCounts ++ [(s.nextGL, 1)], s.nextGL + 1⟩,
       [Ev.createMemoryObjects s.nextGL, Ev.getMemoryFd D,
        Ev.importMemoryFd s.nextGL D]) := by
    simp [nvvk.acquireMemoryObject, habs]
  have hrest : (nvvk.acquireN D m (nvvk.acquireMemoryObject D s).2.1).2 = [] := by
    apply acquireN_hit
    exact acquire_keeps_key D s
  refine ⟨?_, ?_, ?_⟩
  · show countEv (isImportOfMem D) ((nvvk.acquireMemoryObject D s).2.2 ++
      (nvvk.acquireN D m (nvvk.acquireMemoryObject D s).2.1).2) = 1
    rw [hrest, hstep]
    simp [countEv, isImportOfMem]
  · show countEv (isExportOfMem D) ((nvvk.acquireMemoryObject D s).2.2 ++
      (nvvk.acquireN D m (nvvk.acquireMemoryObject D s).2.1).2) = 1
    rw [hrest, hstep]
    simp [countEv, isExportOfMem]
  · intro s2 g hg
    have h2 := acquire_hit hg
    exact ⟨by rw [h2], by rw [h2], by rw [h2], by rw [h2]⟩

/-- Concrete instance of C1: three resources acquired against one allocation
(identity 7) starting from the empty cache: exactly one import happens. -/
theorem C1_acquire_imports_once_witness :
    alookup (nvvk.MemoryObjectManager.mk [] [] 1).importedMemoryObjects 7 = none ∧
    1 ≤ 3 ∧
    countEv (isImportOfMem 7) (nvvk.acquireN 7 3 ⟨[], [], 1⟩).2 = 1 ∧
    countEv (isExportOfMem 7) (nvvk.acquireN 7 3 ⟨[], [], 1⟩).2 = 1 :=
  ⟨by decide, by decide,
   (C1_acquire_imports_once 7 3 ⟨[], [], 1⟩ (by decide) (by decide)).1,
   (C1_acquire_imports_once 7 3 ⟨[], [], 1⟩ (by decide) (by decide)).2.1⟩

namespace nvvkpp

/-- The 2019 fd-based `BufferVkGL` (gl_vkpp.hpp, POSIX branch): the stored
descriptor (`-1` when none), the GL memory object and the GL buffer id.
The Vulkan buffer handle itself plays no role in the fd lifecycle. -/
structure BufferVkGL where
  fd : Int
  memoryObject : Nat
  oglId : Nat
deriving DecidableEq, Repr

/-- `nvvkpp::createBufferGL` (gl_vkpp.hpp lines 100-121, POSIX branch):
vkGetMemoryFdKHR stores the fresh descriptor `f` into bufGl.fd,
glCreateBuffers gives `o`, glCreateMemoryObjectsEXT gives `g`,
glImportMemoryFdEXT consumes the descriptor, and right after the import the
source sets `bufGl.fd = -1` ("fd got consumed"). -/
def createBufferGL (f : Int) (g o : Nat) (_b : BufferVkGL) : BufferVkGL × List Ev :=
  (⟨-1, g, o⟩,
   [Ev.vkGetMemoryFdResult f, Ev.createBuffers o, Ev.createMemoryObjects g,
    Ev.importMemoryFdRaw g f, Ev.bufStorageMem o g])

/-- `nvvkpp::BufferVkGL::destroy` (gl_vkpp.hpp lines 49-63, POSIX branch):
destroy the Vulkan buffer; close the descriptor ONLY when it is not -1 and set
it to -1; delete the GL buffer and the GL memory object. -/
def BufferVkGL.destroy (b : BufferVkGL) : BufferVkGL × List Ev :=
  let closeEvs : List Ev := if b.fd = -1 then [] else [Ev.closeFd b.fd]
  (⟨-1, b.memoryObject, b.oglId⟩,
   [Ev.destroyVkResource] ++ closeEvs ++
   [Ev.deleteBuffers b.oglId, Ev.deleteMemoryObjects b.memoryObject])

end nvvkpp

/-- Recognize glImportMemoryFdEXT calls consuming descriptor `f` (fd path). -/
def isImportOfFd (f : Int) : Ev → Bool
  | .importMemoryFdRaw _ fd => fd = f
  | _ => false

/-- Recognize close() calls on descriptor `f`. -/
def isCloseOfFd (f : Int) : Ev → Bool
  | .closeFd fd => fd = f
  | _ => false

/-- C2.  A descriptor `f` obtained for a shared buffer's memory is consumed
exactly once: `createBufferGL` makes exactly one import call with `f` and then
stores -1 in the fd field, so the following `destroy` closes nothing; and for a
buffer still holding an unconsumed descriptor, `destroy` closes it exactly once
and resets the field, so a second destroy does not close it again. -/
theorem C2_fd_consumed_once (b0 : nvvkpp.BufferVkGL) (f : Int) (g o : Nat)
    (hf : f ≠ -1) :
    (nvvkpp.createBufferGL f g o b0).1.fd = -1 ∧
    countEv (isImportOfFd f) (nvvkpp.createBufferGL f g o b0).2 = 1 ∧
    countEv (isCloseOfFd f)
      ((nvvkpp.createBufferGL f g o b0).2 ++ ((nvvkpp.createBufferGL f g o b0).1.destroy).2) = 0 ∧
    (∀ b : nvvkpp.BufferVkGL, b.fd = f →
      countEv (isCloseOfFd f) (b.destroy).2 = 1 ∧
      (b.destroy).1.fd = -1 ∧
      countEv (isCloseOfFd f) (((b.destroy).1).destroy).2 = 0) := by
  refine ⟨rfl, ?_, ?_, ?_⟩
  · simp [nvvkpp.createBufferGL, countEv, isImportOfFd]
  · simp [nvvkpp.createBufferGL, nvvkpp.BufferVkGL.destroy, countEv, isCloseOfFd,
      countEv_append]
  · intro b hb
    refine ⟨?_, rfl, ?_⟩
    · simp [nvvkpp.BufferVkGL.destroy, hb, hf, countEv, countEv_append, isCloseOfFd]
    · simp [nvvkpp.BufferVkGL.destroy, countEv, countEv_append, isCloseOfFd]

/-- Concrete instance of C2 with descriptor 9. -/
theorem C2_fd_consumed_once_witness :
    (9 : Int) ≠ -1 ∧
    (nvvkpp.createBufferGL 9 1 2 ⟨-1, 0, 0⟩).1.fd = -1 ∧
    countEv (isImportOfFd 9) (nvvkpp.createBufferGL 9 1 2 ⟨-1, 0, 0⟩).2 = 1 ∧
    countEv (isCloseOfFd 9)
      ((nvvkpp.createBufferGL 9 1 2 ⟨-1, 0, 0⟩).2 ++
        ((nvvkpp.createBufferGL 9 1 2 ⟨-1, 0, 0⟩).1.destroy).2) = 0 :=
  ⟨by decide,
   (C2_fd_consumed_once ⟨-1, 0, 0⟩ 9 1 2 (by decide)).1,
   (C2_fd_consumed_once ⟨-1, 0, 0⟩ 9 1 2 (by decide)).2.1,
   (C2_fd_consumed_once ⟨-1, 0, 0⟩ 9 1 2 (by decide)).2.2.1⟩

namespace nvvk

/-- The manager-based `BufferVkGL` (gl_vk.hpp lines 260-277): GL memory object
id (0 when none) and GL buffer id. -/
structure BufferVkGL where
  memoryObject : Nat
  oglId : Nat
deriving DecidableEq, Repr

/-- `nvvk::BufferVkGL::destroy` (gl_vk.hpp lines 266-276): destroy the Vulkan
buffer, delete the GL buffer, and release the cache reference only when
`memoryObject != 0`, setting the field to 0 right after. -/
def BufferVkGL.destroy (b : BufferVkGL) (mgr : MemoryObjectManager) :
    BufferVkGL × MemoryObjectManager × List Ev :=
  let rel : MemoryObjectManager × List Ev :=
    if b.memoryObject = 0 then (mgr, [])
    else
      let r := releaseMemoryObject b.memoryObject mgr
      (r.1, Ev.releaseCall b.memoryObject :: r.2)
  (⟨0, b.oglId⟩, rel.1,
   [Ev.destroyVkResource, Ev.deleteBuffers b.oglId] ++ rel.2)

/-- The manager-based `Texture2DVkGL` (gl_vk.hpp lines 284-303): the exported
image's device-memory identity, the GL memory object id (0 when none) and the
GL texture id. -/
structure Texture2DVkGL where
  deviceMemory : Nat
  memoryObject : Nat
  oglId : Nat
deriving DecidableEq, Repr

/-- `nvvk::Texture2DVkGL::destroy` (gl_vk.hpp lines 292-302): delete the GL
texture, release the cache reference only when `memoryObject != 0` (setting the
field to 0), then destroy the Vulkan image. -/
def Texture2DVkGL.destroy (t : Texture2DVkGL) (mgr : MemoryObjectManager) :
    Texture2DVkGL × MemoryObjectManager × List Ev :=
  let rel : MemoryObjectManager × List Ev :=
    if t.memoryObject = 0 then (mgr, [])
    else
      let r := releaseMemoryObject t.memoryObject mgr
      (r.1, Ev.releaseCall t.memoryObject :: r.2)
  (⟨t.deviceMemory, 0, t.oglId⟩, rel.1,
   [Ev.deleteTextures t.oglId] ++ rel.2 ++ [Ev.destroyVkResource])

end nvvk

/-- Recognize calls into releaseMemoryObject made by resource destroys. -/
def isReleaseCall : Ev → Bool
  | .releaseCall _ => true
  | _ => false

/-- releaseMemoryObject itself emits only glDeleteMemoryObjectsEXT calls,
never a nested releaseCall. -/
theorem release_no_releaseCall (g : Nat) (mgr : nvvk.MemoryObjectManager) :
    countEv isReleaseCall (nvvk.releaseMemoryObject g mgr).2 = 0 := by
  unfold nvvk.releaseMemoryObject
  cases hc : alookup mgr.refCounts g with
  | none => simp [countEv]
  | some c => by_cases hz : c - 1 = 0 <;> simp [hz, countEv, isReleaseCall]

/-- C9.  For every `BufferVkGL` and `Texture2DVkGL`, `destroy` releases the
cache reference at most once: exactly once when `memoryObject` is nonzero and
never otherwise, the field is 0 afterwards, and a second `destroy` of the same
object issues no further release. -/
theorem C9_destroy_releases_at_most_once (b : nvvk.BufferVkGL)
    (t : nvvk.Texture2DVkGL) (mgr mgr2 : nvvk.MemoryObjectManager) :
    ((b.destroy mgr).1.memoryObject = 0 ∧
     countEv isReleaseCall (b.destroy mgr).2.2 = (if b.memoryObject = 0 then 0 else 1) ∧
     countEv isReleaseCall (((b.destroy mgr).1).destroy (b.destroy mgr).2.1).2.2 = 0) ∧
    ((t.destroy mgr2).1.memoryObject = 0 ∧
     countEv isReleaseCall (t.destroy mgr2).2.2 = (if t.memoryObject = 0 then 0 else 1) ∧
     countEv isReleaseCall (((t.destroy mgr2).1).destroy (t.destroy mgr2).2.1).2.2 = 0) := by
  constructor
  · refine ⟨rfl, ?_, ?_⟩
    · by_cases hb : b.memoryObject = 0 <;>
        simp [nvvk.BufferVkGL.destroy, hb, countEv, countEv_append, isReleaseCall,
          release_no_releaseCall]
    · simp [nvvk.BufferVkGL.destroy, countEv, countEv_append, isReleaseCall]
  · refine ⟨rfl, ?_, ?_⟩
    · by_cases ht : t.memoryObject = 0 <;>
        simp [nvvk.Texture2DVkGL.destroy, ht, countEv, countEv_append, isReleaseCall,
          release_no_releaseCall]
    · simp [nvvk.Texture2DVkGL.destroy, countEv, countEv_append, isReleaseCall]

/-- C10.  Destroying a `MemoryObjectManager` whose imported-memory-object map is
non-empty trips the destructor's debug assertion; with an empty map no
assertion fires. -/
theorem C10_dtor_asserts_on_nonempty (s : nvvk.MemoryObjectManager)
    (h : s.importedMemoryObjects ≠ []) :
    nvvk.managerDtor s = [Ev.assertFail] := by
  simp [nvvk.managerDtor, h]

/-- Concrete instance of C10: a manager still holding the entry created by one
acquire asserts in its destructor. -/
theorem C10_dtor_asserts_on_nonempty_witness :
    (nvvk.acquireMemoryObject 7 ⟨[], [], 1⟩).2.1.importedMemoryObjects ≠ [] ∧
    nvvk.managerDtor (nvvk.acquireMemoryObject 7 ⟨[], [], 1⟩).2.1 = [Ev.assertFail] :=
  ⟨by decide, C10_dtor_asserts_on_nonempty _ (by decide)⟩

/-- Recognize fired debug assertions. -/
def isAssertFail : Ev → Bool
  | .assertFail => true
  | _ => false

/-- Counterexample to C4.  Acquire identity 7 once, then release the returned
id twice.  The second release is "more releases than acquires / use after the
count reached zero", yet NO assertion fires anywhere in the run and the extra
release is a silent no-op, leaving the state untouched.  (The only assert in
the manager is in its destructor, not in releaseMemoryObject.) -/
theorem C4_release_no_assert_counterexample :
    countEv isAssertFail
      ((nvvk.acquireMemoryObject 7 ⟨[], [], 1⟩).2.2 ++
       (nvvk.releaseMemoryObject 1 (nvvk.acquireMemoryObject 7 ⟨[], [], 1⟩).2.1).2 ++
       (nvvk.releaseMemoryObject 1
         (nvvk.releaseMemoryObject 1 (nvvk.acquireMemoryObject 7 ⟨[], [], 1⟩).2.1).1).2) = 0 ∧
    nvvk.releaseMemoryObject 1
      (nvvk.releaseMemoryObject 1 (nvvk.acquireMemoryObject 7 ⟨[], [], 1⟩).2.1).1 =
      ((nvvk.releaseMemoryObject 1 (nvvk.acquireMemoryObject 7 ⟨[], [], 1⟩).2.1).1, []) := by
  constructor
  · decide
  · decide

/-- C4 amended.  Calling `releaseMemoryObject` for an id that has no
reference-count entry (more releases than acquires, or use of an id after its
count reached zero) is NOT guarded by any assertion: the release is a silent
no-op that leaves the manager unchanged and makes no driver call.  Indeed
`releaseMemoryObject` fires no assertion on ANY input whatsoever — its body
(gl_vk.hpp lines 93-128) contains no assert; the only debug assertion in the
manager is the destructor's empty-cache check. -/
theorem C4_release_silent_noop (g : Nat) (s : nvvk.MemoryObjectManager)
    (h : alookup s.refCounts g = none) :
    nvvk.releaseMemoryObject g s = (s, []) ∧
    (∀ (g2 : Nat) (s2 : nvvk.MemoryObjectManager),
      countEv isAssertFail (nvvk.releaseMemoryObject g2 s2).2 = 0) := by
  constructor
  · simp [nvvk.releaseMemoryObject, h]
  · intro g2 s2
    unfold nvvk.releaseMemoryObject
    cases hc : alookup s2.refCounts g2 with
    | none => simp [countEv]
    | some c => by_cases hz : c - 1 = 0 <;> simp [hz, countEv, isAssertFail]

/-- Concrete instance of C4 amended: releasing id 1 on the empty manager is a
silent no-op, and in particular that release fires no assertion. -/
theorem C4_release_silent_noop_witness :
    alookup (nvvk.MemoryObjectManager.mk [] [] 1).refCounts 1 = none ∧
    nvvk.releaseMemoryObject 1 ⟨[], [], 1⟩ = (⟨[], [], 1⟩, []) ∧
    countEv isAssertFail (nvvk.releaseMemoryObject 1 ⟨[], [], 1⟩).2 = 0 :=
  ⟨by decide, (C4_release_silent_noop 1 ⟨[], [], 1⟩ (by decide)).1,
   (C4_release_silent_noop 1 ⟨[], [], 1⟩ (by decide)).2 1 ⟨[], [], 1⟩⟩

/- ------------------------------------------------------------------
Per-frame and teardown call traces (compute.hpp / main.cpp).
------------------------------------------------------------------ -/

/-- `ComputeImageVk::buildCommandBuffers` (compute.hpp lines 211-230):
vkWaitForFences on the per-frame fence, vkResetFences, then re-record the
compute command buffer (bind pipeline, bind descriptors, push constants,
dispatch). -/
def buildCommandBuffersTrace : List Ev :=
  [Ev.waitForFences, Ev.resetFences, Ev.recordCommandBuffer]

/-- `ComputeImageVk::submit` (compute.hpp lines 287-301): one vkQueueSubmit
whose submission waits on `vkReady` (at the compute stage) before the recorded
commands and signals `vkComplete` after them, followed by vkQueueWaitIdle. -/
def submitTrace : List Ev :=
  [Ev.queueSubmit SemId.vkReady SemId.vkComplete, Ev.queueWaitIdle]

/-- The producer-side per-frame sequence: buildCommandBuffers then submit. -/
def producerFrameTrace : List Ev :=
  buildCommandBuffersTrace ++ submitTrace

/-- `InteropExample::onWindowRefresh` (main.cpp lines 183-199), the steady
frame without a resize: glSignalSemaphoreEXT(glReady), then invoke the
producer (buildCommandBuffers + submit), then glWaitSemaphoreEXT(glComplete),
then the GL draw sampling the shared texture. -/
def onWindowRefreshTrace : List Ev :=
  Ev.glSignalSemaphore SemId.glReady ::
    (producerFrameTrace ++ [Ev.glWaitSemaphore SemId.glComplete, Ev.drawArrays])

/-- `SemaphoresVkGL::destroy` (gl_vk.hpp lines 246-252): vkDestroySemaphore on
both Vulkan semaphores, glDeleteSemaphoresEXT on both GL semaphore ids. -/
def semaphoresVkGLDestroyTrace : List Ev :=
  [Ev.destroySemaphore SemId.vkReady, Ev.destroySemaphore SemId.vkComplete,
   Ev.deleteSemaphores SemId.glReady, Ev.deleteSemaphores SemId.glComplete]

/-- The legacy `ComputeImageVk::destroy` (compute.hpp lines 426-442):
vkQueueWaitIdle, destroy the shared texture, free command buffers, destroy the
descriptor pool, vkDestroySemaphore on the two Vulkan semaphores, destroy the
pipeline cache, fence, pipeline layout, set layout, pipeline and command pool.
It never calls glDeleteSemaphoresEXT. -/
def legacyComputeDestroyTrace : List Ev :=
  [Ev.queueWaitIdle, Ev.otherTeardown, Ev.otherTeardown, Ev.otherTeardown,
   Ev.destroySemaphore SemId.vkReady, Ev.destroySemaphore SemId.vkComplete,
   Ev.otherTeardown, Ev.otherTeardown, Ev.otherTeardown, Ev.otherTeardown,
   Ev.otherTeardown, Ev.otherTeardown]

/-- The current `ComputeImageVk::destroy` (compute.hpp lines 82-98):
vkQueueWaitIdle, destroy the shared texture, free command buffers, destroy the
descriptor pool, then `m_semaphores.destroy(device)` (all four semaphores),
then pipeline cache, fence, layouts, pipeline, command pool. -/
def computeDestroyTrace : List Ev :=
  [Ev.queueWaitIdle, Ev.otherTeardown, Ev.otherTeardown, Ev.otherTeardown] ++
    semaphoresVkGLDestroyTrace ++
    [Ev.otherTeardown, Ev.otherTeardown, Ev.otherTeardown, Ev.otherTeardown,
     Ev.otherTeardown, Ev.otherTeardown]

/-- C5.  In a steady frame: the consumer signals "ready" before the producer's
submission is made; the producer's single submission waits on the Vulkan
semaphore whose underlying object is the one the consumer signalled ("ready")
and signals "complete"; the consumer's GPU wait on "complete" (the underlying
object of the producer's signal) is submitted after the producer's submission
and before the draw that reads the shared texture. -/
theorem C5_frame_semaphore_protocol :
    (onWindowRefreshTrace.filter (fun e => match e with
        | Ev.queueSubmit _ _ => true | _ => false) =
      [Ev.queueSubmit SemId.vkReady SemId.vkComplete]) ∧
    SemId.vkReady.underlying = SemId.glReady.underlying ∧
    SemId.vkComplete.underlying = SemId.glComplete.underlying ∧
    idxOf (Ev.glSignalSemaphore SemId.glReady) onWindowRefreshTrace <
      idxOf (Ev.queueSubmit SemId.vkReady SemId.vkComplete) onWindowRefreshTrace ∧
    idxOf (Ev.queueSubmit SemId.vkReady SemId.vkComplete) onWindowRefreshTrace <
      idxOf (Ev.glWaitSemaphore SemId.glComplete) onWindowRefreshTrace ∧
    idxOf (Ev.glWaitSemaphore SemId.glComplete) onWindowRefreshTrace <
      idxOf Ev.drawArrays onWindowRefreshTrace := by
  decide

/-- Recognize the calls that block the CPU thread until GPU work completes:
vkWaitForFences and vkQueueWaitIdle. -/
def isCpuBlocking : Ev → Bool
  | .waitForFences => true
  | .queueWaitIdle => true
  | _ => false

/-- Counterexample to C7.  The per-frame producer path
(buildCommandBuffers then submit) contains TWO CPU-blocking calls, not one:
the fence wait in buildCommandBuffers AND the vkQueueWaitIdle at the end of
submit (compute.hpp line 300).  So the fence wait is not the only per-frame
CPU blocking point. -/
theorem C7_two_blocking_calls_counterexample :
    producerFrameTrace.filter isCpuBlocking ≠ [Ev.waitForFences] ∧
    producerFrameTrace.filter isCpuBlocking = [Ev.waitForFences, Ev.queueWaitIdle] := by
  decide

/-- C7 amended.  The producer path blocks the CPU exactly twice per frame: the
vkWaitForFences on the per-frame fence in buildCommandBuffers, and the
vkQueueWaitIdle at the end of submit; no other call in the path blocks. -/
theorem C7_blocking_calls_are_fence_and_idle :
    producerFrameTrace.filter isCpuBlocking = [Ev.waitForFences, Ev.queueWaitIdle] ∧
    countEv isCpuBlocking producerFrameTrace = 2 := by
  decide

/-- Counterexample to C6.  The teardown path of the legacy
`ComputeImageVk::destroy` (compute.hpp lines 426-442) destroys the two Vulkan
semaphores but deletes NO OpenGL semaphore id: glDeleteSemaphoresEXT is never
called there, so not every teardown path destroys all four semaphore objects. -/
theorem C6_legacy_destroy_leaks_gl_semaphores :
    countEv (fun e => match e with
      | Ev.deleteSemaphores _ => true | _ => false) legacyComputeDestroyTrace = 0 ∧
    countEv (fun e => match e with
      | Ev.destroySemaphore _ => true | _ => false) legacyComputeDestroyTrace = 2 := by
  decide

/-- C6 amended.  `SemaphoresVkGL::destroy` destroys all four semaphore objects
(each of the two Vulkan semaphores and the two GL semaphore ids exactly once),
and the current `ComputeImageVk::destroy` reaches it; but the legacy
`ComputeImageVk::destroy` teardown path (compute.hpp lines 426-442) destroys
only the two Vulkan semaphores and never deletes the two GL semaphore ids. -/
theorem C6_semaphore_pair_destroy :
    countEv (fun e => e = Ev.destroySemaphore SemId.vkReady) semaphoresVkGLDestroyTrace = 1 ∧
    countEv (fun e => e = Ev.destroySemaphore SemId.vkComplete) semaphoresVkGLDestroyTrace = 1 ∧
    countEv (fun e => e = Ev.deleteSemaphores SemId.glReady) semaphoresVkGLDestroyTrace = 1 ∧
    countEv (fun e => e = Ev.deleteSemaphores SemId.glComplete) semaphoresVkGLDestroyTrace = 1 ∧
    (computeDestroyTrace.filter (fun e => match e with
        | Ev.destroySemaphore _ => true | Ev.deleteSemaphores _ => true
        | _ => false) = semaphoresVkGLDestroyTrace) ∧
    countEv (fun e => match e with
      | Ev.deleteSemaphores _ => true | _ => false) legacyComputeDestroyTrace = 0 := by
  decide

namespace nvvk

/-- `nvvk::createTextureGL` (gl_vk.hpp lines 329-346): acquire the memory
object for the image's allocation through the manager, then glCreateTextures
and glTextureStorageMem2DEXT binding the texture to the memory object. -/
def createTextureGL (newOgl : Nat) (t : Texture2DVkGL) (mgr : MemoryObjectManager) :
    Texture2DVkGL × MemoryObjectManager × List Ev :=
  let r := acquireMemoryObject t.deviceMemory mgr
  (⟨t.deviceMemory, r.1, newOgl⟩, r.2.1,
   r.2.2 ++ [Ev.createTextures newOgl, Ev.texStorageMem newOgl r.1])

/-- `ComputeImageVk::prepareTextureTarget` (compute.hpp lines 236-282):
createImageExport allocates the fresh exportable image (identity `newMem`);
then the image layout is transitioned with a one-shot command buffer
(lines 274-279): nvvk::beginSingleTimeCommands records the barrier,
nvvk::endSingleTimeCommands submits it to the queue WITHOUT semaphores and
CPU-blocks on the submission fence until it completes (the command buffer is
freed right after, so the wait is unconditional). -/
def prepareTextureTargetTrace (newMem : Nat) : List Ev :=
  [Ev.createImageExport newMem, Ev.recordBarrierCommands,
   Ev.queueSubmitOneShot, Ev.waitForFences]

/-- `ComputeImageVk::update` (compute.hpp lines 103-110), the resize path:
destroy the old shared texture (`Texture2DVkGL::destroy`, releasing its cache
reference), then `prepareTextureTarget` creates the new exportable image and
runs its blocking one-shot layout transition, then `createTextureGL` imports
the new allocation, then `updateDescriptors`.  The function itself contains no
vkQueueWaitIdle. -/
def computeUpdate (old : Texture2DVkGL) (newMem newOgl : Nat)
    (mgr : MemoryObjectManager) : Texture2DVkGL × MemoryObjectManager × List Ev :=
  let d := old.destroy mgr
  let t0 : Texture2DVkGL := ⟨newMem, 0, 0⟩
  let c := createTextureGL newOgl t0 d.2.1
  (c.1, c.2.1, d.2.2 ++ prepareTextureTargetTrace newMem ++ c.2.2 ++ [Ev.updateDescriptorSets])

end nvvk

/-- Counterexample to C8.  A concrete resize (old texture on identity 5 with
memory object 1, the only cache entry; new identity 6): the resize path does
NOT "first idle the producer queue" — it contains no vkQueueWaitIdle at all,
its very first action is the teardown of the old texture (glDeleteTextures),
and the old entry's cache release and memory-object delete happen strictly
before the only CPU-blocking call of the path (the fence wait of the one-shot
layout-transition submission inside prepareTextureTarget).  The queue is idle
at entry only because the previous frame's submit ended in vkQueueWaitIdle. -/
theorem C8_resize_no_idle_counterexample :
    countEv (fun e => e = Ev.queueWaitIdle)
      (nvvk.computeUpdate ⟨5, 1, 3⟩ 6 4 ⟨[(5, 1)], [(1, 1)], 2⟩).2.2 = 0 ∧
    ((nvvk.computeUpdate ⟨5, 1, 3⟩ 6 4 ⟨[(5, 1)], [(1, 1)], 2⟩).2.2).head? =
      some (Ev.deleteTextures 3) ∧
    idxOf (Ev.deleteMemoryObjects 1)
        (nvvk.computeUpdate ⟨5, 1, 3⟩ 6 4 ⟨[(5, 1)], [(1, 1)], 2⟩).2.2 <
      idxOf Ev.waitForFences
        (nvvk.computeUpdate ⟨5, 1, 3⟩ 6 4 ⟨[(5, 1)], [(1, 1)], 2⟩).2.2 := by
  refine ⟨by decide, by decide, by decide⟩

/-- C8 amended.  The resize path performs no queue idle itself (no
vkQueueWaitIdle occurs in it; the producer queue is already idle because every
frame's submit ends in vkQueueWaitIdle).  It fully destroys the old
SharedTexture — releasing its memory-object cache reference, deleting its GL
memory object (last reference) and destroying the Vulkan image — strictly
before the new allocation is created, with no blocking call before that
teardown; the only CPU-blocking call of the path is the fence wait of the
one-shot layout-transition submission inside prepareTextureTarget, made while
creating the new image and before its import; afterwards the cache contains
exactly one entry, the new identity only. -/
theorem C8_resize_teardown_then_recreate (old : nvvk.Texture2DVkGL)
    (D g n newMem newOgl : Nat) (hmo : old.memoryObject = g) (hg : g ≠ 0) :
    (nvvk.computeUpdate old newMem newOgl ⟨[(D, g)], [(g, 1)], n⟩).2.1 =
      ⟨[(newMem, n)], [(n, 1)], n + 1⟩ ∧
    (nvvk.computeUpdate old newMem newOgl ⟨[(D, g)], [(g, 1)], n⟩).1 =
      ⟨newMem, n, newOgl⟩ ∧
    (nvvk.computeUpdate old newMem newOgl ⟨[(D, g)], [(g, 1)], n⟩).2.2 =
      [Ev.deleteTextures old.oglId, Ev.releaseCall g, Ev.deleteMemoryObjects g,
       Ev.destroyVkResource, Ev.createImageExport newMem,
       Ev.recordBarrierCommands, Ev.queueSubmitOneShot, Ev.waitForFences,
       Ev.createMemoryObjects n, Ev.getMemoryFd newMem, Ev.importMemoryFd n newMem,
       Ev.createTextures newOgl, Ev.texStorageMem newOgl n,
       Ev.updateDescriptorSets] ∧
    countEv (fun e => e = Ev.queueWaitIdle)
      (nvvk.computeUpdate old newMem newOgl ⟨[(D, g)], [(g, 1)], n⟩).2.2 = 0 ∧
    ((nvvk.computeUpdate old newMem newOgl ⟨[(D, g)], [(g, 1)], n⟩).2.2).filter
      isCpuBlocking = [Ev.waitForFences] := by
  refine ⟨?_, ?_, ?_, ?_, ?_⟩ <;>
    simp [nvvk.computeUpdate, nvvk.Texture2DVkGL.destroy, nvvk.createTextureGL,
      nvvk.prepareTextureTargetTrace, nvvk.acquireMemoryObject,
      nvvk.releaseMemoryObject, hmo, hg, alookup, aerase, aeraseVal,
      countEv, countEv_append, isCpuBlocking]

/-- Concrete instance of C8 amended: the same resize as the counterexample
ends with the cache holding exactly the new identity, and its only
CPU-blocking call is the one-shot-submission fence wait. -/
theorem C8_resize_teardown_then_recreate_witness :
    (nvvk.Texture2DVkGL.mk 5 1 3).memoryObject = 1 ∧ (1 : Nat) ≠ 0 ∧
    (nvvk.computeUpdate ⟨5, 1, 3⟩ 6 4 ⟨[(5, 1)], [(1, 1)], 2⟩).2.1 =
      ⟨[(6, 2)], [(2, 1)], 3⟩ ∧
    ((nvvk.computeUpdate ⟨5, 1, 3⟩ 6 4 ⟨[(5, 1)], [(1, 1)], 2⟩).2.2).filter
      isCpuBlocking = [Ev.waitForFences] :=
  ⟨by decide, by decide,
   (C8_resize_teardown_then_recreate ⟨5, 1, 3⟩ 5 1 2 6 4 (by decide) (by decide)).1,
   (C8_resize_teardown_then_recreate ⟨5, 1, 3⟩ 5 1 2 6 4 (by decide) (by decide)).2.2.2.2⟩

/- ------------------------------------------------------------------
C3: interleaved acquire/release traces on one identity.
------------------------------------------------------------------ -/

/-- Client operations against one device-memory identity: acquire one more
reference, or release the reference currently held. -/
inductive MMOp
  | acq
  | rel
deriving DecidableEq, Repr

/-- Number of acquires in a trace. -/
def countAcq : List MMOp → Nat
  | [] => 0
  | MMOp.acq :: t => countAcq t + 1
  | MMOp.rel :: t => countAcq t

/-- Number of releases in a trace. -/
def countRel : List MMOp → Nat
  | [] => 0
  | MMOp.acq :: t => countRel t
  | MMOp.rel :: t => countRel t + 1

/-- A trace is admissible from running count `c` when no release happens while
the count is 0 — i.e. the reference count never goes negative. -/
def validOps : Nat → List MMOp → Bool
  | _, [] => true
  | c, MMOp.acq :: t => validOps (c + 1) t
  | 0, MMOp.rel :: _ => false
  | c + 1, MMOp.rel :: t => validOps c t

/-- Running reference count after a trace started at count `c`. -/
def cnt : Nat → List MMOp → Nat
  | c, [] => c
  | c, MMOp.acq :: t => cnt (c + 1) t
  | c, MMOp.rel :: t => cnt (c - 1) t

/-- Number of cache-entry generations a trace starts: acquires made while the
running count is 0 are cache misses creating a fresh entry. -/
def newGens : Nat → List MMOp → Nat
  | _, [] => 0
  | 0, MMOp.acq :: t => newGens 1 t + 1
  | c + 1, MMOp.acq :: t => newGens (c + 2) t
  | c, MMOp.rel :: t => newGens (c - 1) t

/-- Run a client trace against identity `D`: an acquire calls
`acquireMemoryObject D`; a release calls `releaseMemoryObject` on the id
currently cached for `D` (the id the matching acquire returned). -/
def runOps (D : Nat) : List MMOp → nvvk.MemoryObjectManager → nvvk.MemoryObjectManager × List Ev
  | [], s => (s, [])
  | MMOp.acq :: t, s =>
      let r := nvvk.acquireMemoryObject D s
      let r2 := runOps D t r.2.1
      (r2.1, r.2.2 ++ r2.2)
  | MMOp.rel :: t, s =>
      let r : nvvk.MemoryObjectManager × List Ev :=
        match alookup s.importedMemoryObjects D with
        | some g => nvvk.releaseMemoryObject g s
        | none => (s, [])
      let r2 := runOps D t r.1
      (r2.1, r.2 ++ r2.2)

/-- GL memory-object names passed to glCreateMemoryObjectsEXT, in call order. -/
def createIds : List Ev → List Nat
  | [] => []
  | Ev.createMemoryObjects g :: t => g :: createIds t
  | _ :: t => createIds t

/-- GL memory-object names passed to glDeleteMemoryObjectsEXT, in call order. -/
def deleteIds : List Ev → List Nat
  | [] => []
  | Ev.deleteMemoryObjects g :: t => g :: deleteIds t
  | _ :: t => deleteIds t

theorem createIds_append (l1 l2 : List Ev) :
    createIds (l1 ++ l2) = createIds l1 ++ createIds l2 := by
  induction l1 with
  | nil => simp [createIds]
  | cons x t ih => cases x <;> simp [createIds, ih]

theorem deleteIds_append (l1 l2 : List Ev) :
    deleteIds (l1 ++ l2) = deleteIds l1 ++ deleteIds l2 := by
  induction l1 with
  | nil => simp [deleteIds]
  | cons x t ih => cases x <;> simp [deleteIds, ih]

/-- The list [a, a+1, ..., a+k-1]. -/
def idRange : Nat → Nat → List Nat
  | _, 0 => []
  | a, k + 1 => a :: idRange (a + 1) k

theorem mem_idRange : ∀ (k a b : Nat), b ∈ idRange a k ↔ a ≤ b ∧ b < a + k := by
  intro k
  induction k with
  | zero => intro a b; simp [idRange]
  | succ m ih =>
    intro a b
    simp [idRange, ih (a + 1) b]
    omega

theorem idRange_nodup : ∀ (k a : Nat), (idRange a k).Nodup := by
  intro k
  induction k with
  | zero => intro a; simp [idRange]
  | succ m ih =>
    intro a
    simp [idRange, List.nodup_cons, ih (a + 1), mem_idRange]

theorem idRange_length : ∀ (k a : Nat), (idRange a k).length = k := by
  intro k
  induction k with
  | zero => intro a; rfl
  | succ m ih => intro a; simp [idRange, ih (a + 1)]

/-- 1 when the count is live, 0 when it is zero. -/
def lb : Nat → Nat
  | 0 => 0
  | _ + 1 => 1

theorem lb_le_one (x : Nat) : lb x ≤ 1 := by
  cases x <;> simp [lb]

theorem lb_zero : lb 0 = 0 := rfl

theorem lb_succ (m : Nat) : lb (m + 1) = 1 := rfl

theorem pos_cnt_gens : ∀ (t : List MMOp) (c : Nat), 0 < cnt c t → 1 ≤ newGens c t + lb c := by
  intro t
  induction t with
  | nil =>
    intro c hc
    cases c with
    | zero => simp [cnt] at hc
    | succ k => simp [newGens, lb]
  | cons op tl ih =>
    intro c hc
    cases op with
    | acq =>
      cases c with
      | zero => simp [newGens, lb]
      | succ k => simp [newGens, lb]
    | rel =>
      cases c with
      | zero =>
        have h := ih 0 (by simpa [cnt] using hc)
        simpa [newGens, lb] using h
      | succ k => simp [newGens, lb]

theorem lb_cnt_le (t : List MMOp) (c : Nat) : lb (cnt c t) ≤ newGens c t + lb c := by
  cases h : cnt c t with
  | zero => simp [lb]
  | succ m =>
    have hp := pos_cnt_gens t c (by omega)
    simpa [lb] using hp

/-- Manager-state invariant for a run against identity `D` from the empty
manager with name counter `n0`: after `gens` generations with current count
`c`, the cache is empty when `c = 0`, and holds exactly the entry of the
current generation (GL name `n0 + gens - 1`, count `c`) when `c > 0`. -/
def stInv (D n0 gens c : Nat) (s : nvvk.MemoryObjectManager) : Prop :=
  s.nextGL = n0 + gens ∧
  ((c = 0 ∧ s.importedMemoryObjects = [] ∧ s.refCounts = []) ∨
   (0 < c ∧ ∃ gp, gens = gp + 1 ∧ s.importedMemoryObjects = [(D, n0 + gp)] ∧
    s.refCounts = [(n0 + gp, c)]))


theorem runOps_spec (D n0 : Nat) : ∀ (ops : List MMOp) (gens c : Nat)
    (s : nvvk.MemoryObjectManager), stInv D n0 gens c s → validOps c ops = true →
    stInv D n0 (gens + newGens c ops) (cnt c ops) (runOps D ops s).1 ∧
    createIds (runOps D ops s).2 = idRange (n0 + gens) (newGens c ops) ∧
    deleteIds (runOps D ops s).2 =
      idRange (n0 + gens - lb c) (newGens c ops + lb c - lb (cnt c ops)) := by
  intro ops
  induction ops with
  | nil =>
    intro gens c s hinv _
    refine ⟨by simpa [newGens, cnt] using hinv,
      by simp [runOps, createIds, newGens, idRange], ?_⟩
    simp [runOps, deleteIds, newGens, cnt, idRange]
  | cons op t ih =>
    intro gens c s hinv hval
    obtain ⟨hnext, hdisj⟩ := hinv
    cases op with
    | acq =>
      cases c with
      | zero =>
        obtain ⟨himp, hrc⟩ : s.importedMemoryObjects = [] ∧ s.refCounts = [] := by
          rcases hdisj with ⟨_, h1, h2⟩ | ⟨hpos, _⟩
          · exact ⟨h1, h2⟩
          · omega
        have hstep : nvvk.acquireMemoryObject D s =
            (n0 + gens,
             ⟨[(D, n0 + gens)], [(n0 + gens, 1)], n0 + gens + 1⟩,
             [Ev.createMemoryObjects (n0 + gens), Ev.getMemoryFd D,
              Ev.importMemoryFd (n0 + gens) D]) := by
          simp [nvvk.acquireMemoryObject, himp, hrc, alookup, hnext]
        have hrun : runOps D (MMOp.acq :: t) s =
            ((runOps D t ⟨[(D, n0 + gens)], [(n0 + gens, 1)], n0 + gens + 1⟩).1,
             [Ev.createMemoryObjects (n0 + gens), Ev.getMemoryFd D,
              Ev.importMemoryFd (n0 + gens) D] ++
               (runOps D t ⟨[(D, n0 + gens)], [(n0 + gens, 1)], n0 + gens + 1⟩).2) := by
          simp [runOps, hstep]
        have hinv1 : stInv D n0 (gens + 1) 1
            ⟨[(D, n0 + gens)], [(n0 + gens, 1)], n0 + gens + 1⟩ :=
          ⟨rfl, Or.inr ⟨by omega, gens, rfl, rfl, rfl⟩⟩
        have hval1 : validOps 1 t = true := by simpa [validOps] using hval
        obtain ⟨ih1, ih2, ih3⟩ := ih (gens + 1) 1 _ hinv1 hval1
        refine ⟨?_, ?_, ?_⟩
        · rw [hrun]
          have e1 : gens + newGens 0 (MMOp.acq :: t) = gens + 1 + newGens 1 t := by
            simp [newGens]; omega
          rw [e1]
          have e2 : cnt 0 (MMOp.acq :: t) = cnt 1 t := by simp [cnt]
          rw [e2]
          exact ih1
        · rw [hrun, createIds_append]
          have ea : n0 + (gens + 1) = n0 + gens + 1 := by omega
          rw [ea] at ih2
          rw [ih2]
          have en : newGens 0 (MMOp.acq :: t) = newGens 1 t + 1 := by simp [newGens]
          rw [en]
          simp [createIds, idRange]
        · rw [hrun, deleteIds_append]
          have eb : n0 + (gens + 1) - lb 1 = n0 + gens := by simp only [lb]; omega
          have ec : newGens 1 t + lb 1 = newGens 1 t + 1 := by simp [lb]
          rw [eb, ec] at ih3
          rw [ih3]
          have ed : n0 + gens - lb 0 = n0 + gens := by simp [lb]
          have ee : newGens 0 (MMOp.acq :: t) + lb 0 - lb (cnt 0 (MMOp.acq :: t)) =
              newGens 1 t + 1 - lb (cnt 1 t) := by
            simp [newGens, cnt, lb]
          rw [ed, ee]
          simp [deleteIds]
      | succ k =>
        obtain ⟨gp, hgens, himp, hrc⟩ :
            ∃ gp, gens = gp + 1 ∧ s.importedMemoryObjects = [(D, n0 + gp)] ∧
              s.refCounts = [(n0 + gp, k + 1)] := by
          rcases hdisj with ⟨hc0, _⟩ | ⟨_, gp, h1, h2, h3⟩
          · omega
          · exact ⟨gp, h1, h2, h3⟩
        have hstep : nvvk.acquireMemoryObject D s =
            (n0 + gp, ⟨[(D, n0 + gp)], [(n0 + gp, k + 2)], n0 + gens⟩, []) := by
          simp [nvvk.acquireMemoryObject, himp, hrc, alookup, aincr, hnext]
        have hrun : runOps D (MMOp.acq :: t) s =
            ((runOps D t ⟨[(D, n0 + gp)], [(n0 + gp, k + 2)], n0 + gens⟩).1,
             (runOps D t ⟨[(D, n0 + gp)], [(n0 + gp, k + 2)], n0 + gens⟩).2) := by
          simp [runOps, hstep]
        have hinv1 : stInv D n0 gens (k + 2)
            ⟨[(D, n0 + gp)], [(n0 + gp, k + 2)], n0 + gens⟩ :=
          ⟨rfl, Or.inr ⟨by omega, gp, hgens, rfl, rfl⟩⟩
        have hval1 : validOps (k + 2) t = true := by simpa [validOps] using hval
        obtain ⟨ih1, ih2, ih3⟩ := ih gens (k + 2) _ hinv1 hval1
        refine ⟨?_, ?_, ?_⟩
        · rw [hrun]
          have e1 : newGens (k + 1) (MMOp.acq :: t) = newGens (k + 2) t := by
            simp [newGens]
          have e2 : cnt (k + 1) (MMOp.acq :: t) = cnt (k + 2) t := by simp [cnt]
          rw [e1, e2]
          exact ih1
        · rw [hrun, ih2]
          simp [newGens]
        · rw [hrun, ih3]
          simp [newGens, cnt, lb]
    | rel =>
      cases c with
      | zero => simp [validOps] at hval
      | succ k =>
        obtain ⟨gp, hgens, himp, hrc⟩ :
            ∃ gp, gens = gp + 1 ∧ s.importedMemoryObjects = [(D, n0 + gp)] ∧
              s.refCounts = [(n0 + gp, k + 1)] := by
          rcases hdisj with ⟨hc0, _⟩ | ⟨_, gp, h1, h2, h3⟩
          · omega
          · exact ⟨gp, h1, h2, h3⟩
        cases k with
        | zero =>
          have hrun : runOps D (MMOp.rel :: t) s =
              ((runOps D t ⟨[], [], n0 + gens⟩).1,
               Ev.deleteMemoryObjects (n0 + gp) ::
                 (runOps D t ⟨[], [], n0 + gens⟩).2) := by
            simp [runOps, himp, alookup, nvvk.releaseMemoryObject, hrc,
              aerase, aeraseVal, hnext]
          have hinv1 : stInv D n0 gens 0 ⟨[], [], n0 + gens⟩ :=
            ⟨rfl, Or.inl ⟨rfl, rfl, rfl⟩⟩
          have hval1 : validOps 0 t = true := by simpa [validOps] using hval
          obtain ⟨ih1, ih2, ih3⟩ := ih gens 0 _ hinv1 hval1
          refine ⟨?_, ?_, ?_⟩
          · rw [hrun]
            have e1 : newGens (0 + 1) (MMOp.rel :: t) = newGens 0 t := by
              simp [newGens]
            have e2 : cnt (0 + 1) (MMOp.rel :: t) = cnt 0 t := by simp [cnt]
            rw [e1, e2]
            exact ih1
          · rw [hrun]
            have e1 : newGens (0 + 1) (MMOp.rel :: t) = newGens 0 t := by
              simp [newGens]
            rw [e1]
            have hL : createIds (Ev.deleteMemoryObjects (n0 + gp) ::
                (runOps D t ⟨[], [], n0 + gens⟩).2) =
                createIds (runOps D t ⟨[], [], n0 + gens⟩).2 := by
              simp [createIds]
            rw [hL, ih2]
          · rw [hrun]
            have hle : lb (cnt 0 t) ≤ newGens 0 t := by
              have h := lb_cnt_le t 0
              rwa [lb_zero, Nat.add_zero] at h
            have e1 : newGens (0 + 1) (MMOp.rel :: t) + lb (0 + 1) -
                lb (cnt (0 + 1) (MMOp.rel :: t)) =
                (newGens 0 t - lb (cnt 0 t)) + 1 := by
              have ha : newGens (0 + 1) (MMOp.rel :: t) = newGens 0 t := by
                simp [newGens]
              have hb : cnt (0 + 1) (MMOp.rel :: t) = cnt 0 t := by simp [cnt]
              rw [ha, hb, lb_succ]
              omega
            have e2 : n0 + gens - lb (0 + 1) = n0 + gp := by
              rw [lb_succ]
              omega
            rw [e1, e2]
            have hL : deleteIds (Ev.deleteMemoryObjects (n0 + gp) ::
                (runOps D t ⟨[], [], n0 + gens⟩).2) =
                (n0 + gp) :: deleteIds (runOps D t ⟨[], [], n0 + gens⟩).2 := by
              simp [deleteIds]
            rw [hL, ih3]
            have e3 : n0 + gens - lb 0 = n0 + gp + 1 := by
              rw [lb_zero]
              omega
            have e4 : newGens 0 t + lb 0 - lb (cnt 0 t) = newGens 0 t - lb (cnt 0 t) := by
              rw [lb_zero]
              omega
            rw [e3, e4]
            simp [idRange]
        | succ j =>
          have hrun : runOps D (MMOp.rel :: t) s =
              ((runOps D t ⟨[(D, n0 + gp)], [(n0 + gp, j + 1)], n0 + gens⟩).1,
               (runOps D t ⟨[(D, n0 + gp)], [(n0 + gp, j + 1)], n0 + gens⟩).2) := by
            simp [runOps, himp, alookup, nvvk.releaseMemoryObject, hrc, aset, hnext]
          have hinv1 : stInv D n0 gens (j + 1)
              ⟨[(D, n0 + gp)], [(n0 + gp, j + 1)], n0 + gens⟩ :=
            ⟨rfl, Or.inr ⟨by omega, gp, hgens, rfl, rfl⟩⟩
          have hval1 : validOps (j + 1) t = true := by simpa [validOps] using hval
          obtain ⟨ih1, ih2, ih3⟩ := ih gens (j + 1) _ hinv1 hval1
          refine ⟨?_, ?_, ?_⟩
          · rw [hrun]
            have e1 : newGens (j + 1 + 1) (MMOp.rel :: t) = newGens (j + 1) t := by
              simp [newGens]
            have e2 : cnt (j + 1 + 1) (MMOp.rel :: t) = cnt (j + 1) t := by simp [cnt]
            rw [e1, e2]
            exact ih1
          · rw [hrun, ih2]
            simp [newGens]
          · rw [hrun, ih3]
            simp [newGens, cnt, lb]

theorem cnt_balance : ∀ (ops : List MMOp) (c : Nat), validOps c ops = true →
    cnt c ops + countRel ops = c + countAcq ops := by
  intro ops
  induction ops with
  | nil => intro c _; simp [cnt, countRel, countAcq]
  | cons op t ih =>
    intro c hval
    cases op with
    | acq =>
      have h := ih (c + 1) (by simpa [validOps] using hval)
      simp [cnt, countRel, countAcq]
      omega
    | rel =>
      cases c with
      | zero => simp [validOps] at hval
      | succ k =>
        have h := ih k (by simpa [validOps] using hval)
        simp [cnt, countRel, countAcq]
        omega

theorem newGens_pos (ops : List MMOp) (hv : validOps 0 ops = true)
    (ha : 1 ≤ countAcq ops) : 1 ≤ newGens 0 ops := by
  cases ops with
  | nil => simp [countAcq] at ha
  | cons op t =>
    cases op with
    | acq => simp [newGens]
    | rel => simp [validOps] at hv

/-- C3.  For any trace of K ≥ 1 acquires and K releases of the same identity
`D`, interleaved so the count never goes negative, run from the empty manager:
at the end the entry is gone from both cache maps (the count returned to 0),
and the GL memory objects deleted are EXACTLY the ones created — the same ids,
each destroyed exactly once (the delete list has no duplicates), with at least
one entry having existed.  (Deletion happens only at the transition to count 0,
by construction of releaseMemoryObject.) -/
theorem C3_refcount_lifecycle (D n0 K : Nat) (ops : List MMOp)
    (hv : validOps 0 ops = true) (ha : countAcq ops = K) (hr : countRel ops = K)
    (hK : 1 ≤ K) :
    (runOps D ops ⟨[], [], n0⟩).1.importedMemoryObjects = [] ∧
    (runOps D ops ⟨[], [], n0⟩).1.refCounts = [] ∧
    createIds (runOps D ops ⟨[], [], n0⟩).2 = deleteIds (runOps D ops ⟨[], [], n0⟩).2 ∧
    (deleteIds (runOps D ops ⟨[], [], n0⟩).2).Nodup ∧
    1 ≤ (deleteIds (runOps D ops ⟨[], [], n0⟩).2).length := by
  have hinv0 : stInv D n0 0 0 ⟨[], [], n0⟩ := ⟨by simp, Or.inl ⟨rfl, rfl, rfl⟩⟩
  obtain ⟨hfin, hcr, hdel⟩ := runOps_spec D n0 ops 0 0 ⟨[], [], n0⟩ hinv0 hv
  have hc0 : cnt 0 ops = 0 := by
    have h := cnt_balance ops 0 hv
    omega
  rw [hc0] at hfin hdel
  obtain ⟨hnext, hdisj⟩ := hfin
  obtain ⟨himp, hrc⟩ :
      (runOps D ops ⟨[], [], n0⟩).1.importedMemoryObjects = [] ∧
      (runOps D ops ⟨[], [], n0⟩).1.refCounts = [] := by
    rcases hdisj with ⟨_, h1, h2⟩ | ⟨hpos, _⟩
    · exact ⟨h1, h2⟩
    · omega
  simp only [lb_zero, Nat.add_zero, Nat.sub_zero, Nat.zero_add] at hcr hdel
  refine ⟨himp, hrc, ?_, ?_, ?_⟩
  · rw [hcr, hdel]
  · rw [hdel]
    exact idRange_nodup _ _
  · rw [hdel, idRange_length]
    exact newGens_pos ops hv (by omega)

/-- Concrete instance of C3: K = 2 with trace acquire, acquire, release,
release on identity 5 from the empty manager. -/
theorem C3_refcount_lifecycle_witness :
    validOps 0 [MMOp.acq, MMOp.acq, MMOp.rel, MMOp.rel] = true ∧
    countAcq [MMOp.acq, MMOp.acq, MMOp.rel, MMOp.rel] = 2 ∧
    countRel [MMOp.acq, MMOp.acq, MMOp.rel, MMOp.rel] = 2 ∧
    (runOps 5 [MMOp.acq, MMOp.acq, MMOp.rel, MMOp.rel]
      ⟨[], [], 1⟩).1.importedMemoryObjects = [] ∧
    createIds (runOps 5 [MMOp.acq, MMOp.acq, MMOp.rel, MMOp.rel] ⟨[], [], 1⟩).2 =
      deleteIds (runOps 5 [MMOp.acq, MMOp.acq, MMOp.rel, MMOp.rel] ⟨[], [], 1⟩).2 :=
  ⟨by decide, by decide, by decide,
   (C3_refcount_lifecycle 5 1 2 [MMOp.acq, MMOp.acq, MMOp.rel, MMOp.rel]
     (by decide) (by decide) (by decide) (by decide)).1,
   (C3_refcount_lifecycle 5 1 2 [MMOp.acq, MMOp.acq, MMOp.rel, MMOp.rel]
     (by decide) (by decide) (by decide) (by decide)).2.2.1⟩
